import Mathlib

/-!
Verification of the fashionDeck ML service core (apps/ml-service/app).

Shallow embedding conventions:
* Python floats are modelled as real numbers.
* Fallible Python code is modelled with Except; a try/except handler becomes a
  match on the Except value.
* Randomness (random.uniform) is modelled by passing the sampled value as an
  explicit argument, constrained by the support of the distribution.
* Python str.lower / str.strip / the "in" substring operator are modelled by
  structural functions on the character list of the string (ASCII-faithful,
  which covers every string the service manipulates).
-/

/-- Model of Python str.lower (ASCII): lower-case every character. -/
def pyToLower (s : String) : String := ⟨s.data.map Char.toLower⟩

/-- Model of Python str.upper (ASCII): upper-case every character. -/
def pyToUpper (s : String) : String := ⟨s.data.map Char.toUpper⟩

/-- Model of Python str.strip(): drop whitespace from both ends. -/
def pyStrip (s : String) : String :=
  ⟨((s.data.dropWhile Char.isWhitespace).reverse.dropWhile Char.isWhitespace).reverse⟩

/-- Occurrence of a character list as a contiguous run inside another. -/
def pyInAux (needle : List Char) : List Char → Bool
  | [] => needle.isEmpty
  | c :: rest => needle.isPrefixOf (c :: rest) || pyInAux needle rest

/-- Model of the Python expression needle in haystack on strings. -/
def pyIn (needle haystack : String) : Bool := pyInAux needle.data haystack.data

/-- Model of app.models.ParsedPrompt (pydantic model). -/
structure ParsedPrompt where
  aesthetic : String
  budget : Option ℕ := none
  size : Option String := none
  gender : Option String := none
  occasion : Option String := none
  categories : List String := ["top", "bottom"]
deriving DecidableEq, Repr

/-- Numeric value of an ASCII digit character. -/
def charDigitVal (c : Char) : ℕ := c.toNat - 48

/-- Value of a list of ASCII digit characters read left to right. -/
def natOfDigits (l : List Char) : ℕ := l.foldl (fun acc c => acc * 10 + charDigitVal c) 0

/-- First maximal run of digit characters in a list, if any. -/
def firstDigitRun : List Char → Option (List Char)
  | [] => none
  | c :: rest =>
    if c.isDigit then some (c :: rest.takeWhile (fun d => d.isDigit))
    else firstDigitRun rest

/-- Model of re.search applied to the pattern of one-or-more digits followed by
int(...): the integer read from the first maximal digit run, if any
(parse_service.py lines 150-152). -/
def searchInt (s : String) : Option ℕ := (firstDigitRun s.data).map natOfDigits

/-- Size tokens scanned by the fallback parser, in source order
(parse_service.py line 156). -/
def sizeTokens : List String := ["xs", "s", "m", "l", "xl", "xxl"]

/-- Size extraction loop of ParseService._create_fallback_parse
(parse_service.py lines 155-159): first token matching either padded
word-boundary containment or a "size " prefix, upper-cased. -/
def findSize (prompt_lower : String) : Option String :=
  (sizeTokens.find? (fun s =>
      pyIn (" " ++ s ++ " ") (" " ++ prompt_lower ++ " ") || pyIn ("size " ++ s) prompt_lower)).map
    pyToUpper

/-- Model of ParseService._create_fallback_parse (parse_service.py lines
138-182): deterministic rule-based extraction used when the completion API
fails. -/
def create_fallback_parse (prompt : String) : ParsedPrompt :=
  let prompt_lower := pyToLower prompt
  let budget := searchInt prompt_lower
  let size := findSize prompt_lower
  let gender :=
    if pyIn "men" prompt_lower || pyIn "male" prompt_lower then "male"
    else if pyIn "women" prompt_lower || pyIn "female" prompt_lower then "female"
    else "unisex"
  let categories :=
    ["top", "bottom"]
      ++ (if pyIn "shoe" prompt_lower then ["shoes"] else [])
      ++ (if pyIn "accessor" prompt_lower then ["accessories"] else [])
  { aesthetic := prompt
    budget := budget
    size := size
    gender := some gender
    occasion := none
    categories := categories }

/-- Model of ParseService._generate_cache_key (parse_service.py lines 51-54):
the key is the md5 hex digest of the lower-cased, stripped prompt, prefixed
with "parse:". The hash itself is an opaque deterministic string function,
passed as an argument; every fact proved below holds for any such function. -/
def parse_generate_cache_key (md5_hexdigest : String → String) (prompt : String) : String :=
  "parse:" ++ md5_hexdigest (pyStrip (pyToLower prompt))

/-- Model of the Python expression x or y on an optional string: None and the
empty string are falsy and yield the default. -/
def pyOrElse (x : Option String) (dflt : String) : String :=
  match x with
  | some s => if s = "" then dflt else s
  | none => dflt

/-- Model of Python sorted() on a list of strings (lexicographic by code
point, which is also what Lean's String order compares). -/
def pySorted (l : List String) : List String :=
  l.mergeSort (fun a b => decide (a ≤ b))

/-- Pre-hash key string of PlanService._generate_cache_key (plan_service.py
lines 51-62): aesthetic lower-stripped, gender defaulted to "unisex",
comma-joined sorted categories, and occasion defaulted to "", joined by "|". -/
def plan_cache_key_string (p : ParsedPrompt) : String :=
  String.intercalate "|"
    [pyStrip (pyToLower p.aesthetic),
     pyOrElse p.gender "unisex",
     String.intercalate "," (pySorted p.categories),
     pyOrElse p.occasion ""]

/-- Model of PlanService._generate_cache_key (plan_service.py lines 51-62). -/
def plan_generate_cache_key (md5_hexdigest : String → String) (p : ParsedPrompt) : String :=
  "plan:" ++ md5_hexdigest (plan_cache_key_string p)

/-- Aesthetic-keyword branch of PlanService._create_fallback_plan
(plan_service.py lines 167-191): items and reasoning chosen by the first
matching keyword of the lower-cased aesthetic. -/
def fallback_plan_base (p : ParsedPrompt) : List String × String :=
  let aesthetic_lower := pyToLower p.aesthetic
  if pyIn "korean" aesthetic_lower || pyIn "minimal" aesthetic_lower then
    (["oversized t-shirt", "straight pants", "white sneakers"],
     "Korean minimal aesthetic with clean lines and neutral colors")
  else if pyIn "street" aesthetic_lower then
    (["graphic hoodie", "cargo pants", "chunky sneakers"],
     "Streetwear with bold graphics and utility elements")
  else if pyIn "y2k" aesthetic_lower then
    (["crop top", "low-rise jeans", "platform shoes"],
     "Y2K aesthetic with 2000s-inspired pieces")
  else if pyIn "vintage" aesthetic_lower then
    (["vintage blouse", "high-waisted skirt"],
     "Vintage style with classic silhouettes")
  else if pyIn "athle" aesthetic_lower || pyIn "sport" aesthetic_lower then
    (["sports top", "leggings", "running shoes"],
     "Athleisure combining athletic and casual style")
  else if pyIn "office" aesthetic_lower || pyIn "formal" aesthetic_lower then
    (["button-down shirt", "chino pants"],
     "Office wear balancing professionalism and comfort")
  else
    (["casual top", "comfortable pants"],
     "Casual outfit for " ++ p.aesthetic ++ " aesthetic")

/-- Model of PlanService._create_fallback_plan (plan_service.py lines
160-197): keyword table, a "casual shoes" append when shoes are requested and
only two items were chosen, and a final truncation to four items. -/
def create_fallback_plan (p : ParsedPrompt) : List String × String × Bool :=
  let base := fallback_plan_base p
  let items :=
    if p.categories.contains "shoes" && base.1.length == 2 then base.1 ++ ["casual shoes"]
    else base.1
  (items.take 4, base.2, false)

/-- Model of PlanService.plan_outfit (plan_service.py lines 93-158). The cache
lookup and the upstream call (OpenAI request, JSON decode and item/reasoning
field extraction, any of which can fail) are oracles: cached is the cache
lookup result, api is the outcome of the upstream call. Results whose item
count is outside [2,4] are replaced by the fallback plan, as are all upstream
failures. -/
def plan_outfit (cached : Option (List String × String))
    (api : Except String (List String × String)) (p : ParsedPrompt) :
    List String × String × Bool :=
  match cached with
  | some (items, reasoning) => (items, reasoning, true)
  | none =>
    match api with
    | .ok (items, reasoning) =>
      if 2 ≤ items.length ∧ items.length ≤ 4 then (items, reasoning, false)
      else create_fallback_plan p
    | .error _ => create_fallback_plan p

/-- Model of app.models.OutfitItem. -/
structure OutfitItem where
  title : String
  category : String
  price : ℝ

/-- Model of app.models.OutfitCandidate. -/
structure OutfitCandidate where
  items : List OutfitItem

/-- Model of app.models.ScoreOutfitsRequest. -/
structure ScoreOutfitsRequest where
  aesthetic : String
  outfits : List OutfitCandidate

/-- Model of ScoreService.score_outfits (score_service.py lines 30-88). The
upstream call (prompt build, OpenAI request, JSON decode, scores field
extraction and float() conversion, any of which can fail) is the api oracle.
A wrong-length score list or an upstream failure yields one neutral 5.0 per
requested outfit; otherwise every score is clamped to [1.0, 10.0]. -/
noncomputable def score_outfits (api : Except String (List ℝ))
    (request : ScoreOutfitsRequest) : List ℝ :=
  match api with
  | .error _ => List.replicate request.outfits.length 5.0
  | .ok scores =>
    if scores.length ≠ request.outfits.length then List.replicate request.outfits.length 5.0
    else scores.map (fun s => max 1.0 (min 10.0 s))

/-- Model of app.utils.retry.RetryConfig (retry.py lines 19-26). -/
structure RetryConfig where
  max_retries : ℕ := 3
  initial_delay : ℝ := 1
  max_delay : ℝ := 10
  backoff_multiplier : ℝ := 2
  jitter_enabled : Bool := true

/-- Model of add_jitter (retry.py lines 29-33). The value drawn by
random.uniform(-0.25 * delay, 0.25 * delay) is the explicit jitter argument. -/
noncomputable def add_jitter (delay jitter : ℝ) : ℝ := max 0 (delay + jitter)

/-- Backoff delay computed for retried attempt n (retry.py lines 74-77); the
local variable named delay is set to initial_delay once and never reassigned,
so the base is always initial_delay times the multiplier to the attempt. -/
noncomputable def backoff_delay (config : RetryConfig) (attempt : ℕ) : ℝ :=
  min (config.initial_delay * config.backoff_multiplier ^ attempt) config.max_delay

/-- Delay actually slept after failed attempt n (retry.py lines 79-84),
given the jitter stream js. -/
noncomputable def attempt_delay (config : RetryConfig) (js : ℕ → ℝ) (attempt : ℕ) : ℝ :=
  if config.jitter_enabled then add_jitter (backoff_delay config attempt) (js attempt)
  else backoff_delay config attempt

/-- Observable outcome of one run of the retry wrapper: the returned or raised
value, the list of delays slept (in order), and how many times the wrapped
operation was invoked. -/
structure RetryOutcome (ε α : Type) where
  result : Except ε α
  delays : List ℝ
  calls : ℕ

/-- Loop of retry_async's wrapper (retry.py lines 50-93). The operation op is
indexed by the 0-based attempt number; fuel is the number of attempts still
allowed after the current one, so the loop starts with fuel = max_retries.
With fuel 0 the operation's outcome is final: a success is returned and a
failure is re-raised unmodified (the attempt == max_retries break followed by
raise last_exception). -/
noncomputable def retryAux (config : RetryConfig) (op : ℕ → Except ε α) (js : ℕ → ℝ) :
    ℕ → ℕ → RetryOutcome ε α
  | attempt, 0 => ⟨op attempt, [], 1⟩
  | attempt, fuel + 1 =>
    match op attempt with
    | .ok a => ⟨.ok a, [], 1⟩
    | .error _ =>
      let rest := retryAux config op js (attempt + 1) fuel
      ⟨rest.result, attempt_delay config js attempt :: rest.delays, rest.calls + 1⟩

/-- Model of retry_async (retry.py lines 36-96): run the wrapped operation
starting at attempt 0 with max_retries further attempts allowed. -/
noncomputable def retry_async (config : RetryConfig) (op : ℕ → Except ε α) (js : ℕ → ℝ) :
    RetryOutcome ε α :=
  retryAux config op js 0 config.max_retries

/-- Model of RetryConfigs.DATABASE (retry.py lines 111-117). -/
def RetryConfigs_DATABASE : RetryConfig :=
  { max_retries := 5, initial_delay := 2, max_delay := 30, backoff_multiplier := 2,
    jitter_enabled := false }

/-- Model of RetryConfigs.LLM_API (retry.py lines 103-109). -/
def RetryConfigs_LLM_API : RetryConfig :=
  { max_retries := 3, initial_delay := 1, max_delay := 10, backoff_multiplier := 2,
    jitter_enabled := true }

/-- Dot product of two equal-length real vectors; on the padded tail of
unequal-length lists it is never used (np.dot raises instead, see npDot). -/
noncomputable def dotList : List ℝ → List ℝ → ℝ
  | x :: xs, y :: ys => x * y + dotList xs ys
  | _, _ => 0

/-- Model of np.dot on two 1-D arrays: the dot product when the shapes agree,
a raised ValueError otherwise. -/
noncomputable def npDot (x y : List ℝ) : Except String ℝ :=
  if x.length = y.length then .ok (dotList x y) else .error "ValueError: shapes not aligned"

/-- Sum of squared components, the square of np.linalg.norm. -/
noncomputable def sumSq (e : List ℝ) : ℝ := dotList e e

/-- Model of e / np.linalg.norm(e): every component divided by the Euclidean
norm (similarity_service.py line 108). -/
noncomputable def normalizeVec (e : List ℝ) : List ℝ :=
  e.map (fun x => x / Real.sqrt (sumSq e))

/-- The i < j pairwise np.dot loop of calculate_coherence
(similarity_service.py lines 110-114), with the possible shape ValueError. -/
noncomputable def pairSimsE : List (List ℝ) → Except String (List ℝ)
  | [] => .ok []
  | e :: rest => do
    let firsts ← rest.mapM (npDot e)
    let others ← pairSimsE rest
    pure (firsts ++ others)

/-- Pairwise dot products over i < j for well-formed (equal-dimension)
inputs; the error-free counterpart of pairSimsE. -/
noncomputable def pairSims : List (List ℝ) → List ℝ
  | [] => []
  | e :: rest => rest.map (dotList e) ++ pairSims rest

/-- Body of the try block of SimilarityService.calculate_coherence
(similarity_service.py lines 105-124): normalize, average the pairwise
similarities, penalize a sub-0.6 mean quadratically, clamp to [0,1]. -/
noncomputable def coherence_try (embeddings : List (List ℝ)) : Except String ℝ := do
  let embs := embeddings.map normalizeVec
  let sims ← pairSimsE embs
  let avg_sim := sims.sum / (sims.length : ℝ)
  let avg_sim := if avg_sim < 0.6 then avg_sim * (avg_sim / 0.6) else avg_sim
  pure (max 0 (min 1 avg_sim))

/-- Model of SimilarityService.calculate_coherence (similarity_service.py
lines 96-128): fewer than two embeddings are trivially coherent; any exception
inside the try block is caught and the neutral 0.5 is returned. -/
noncomputable def calculate_coherence (embeddings : List (List ℝ)) : ℝ :=
  if embeddings.length < 2 then 1.0
  else
    match coherence_try embeddings with
    | .ok v => v
    | .error _ => 0.5

/-- Reference definition of the coherence score, written from the spec
(section 4.5, contract B): 0 or 1 embedding is trivially coherent with score
1.0; otherwise each embedding is re-normalized, the mean of all the pairwise
cosine similarities (dot products) is computed, a mean below 0.6 is replaced
by mean * (mean / 0.6), and the result is clamped to [0,1]. -/
noncomputable def coherence_spec (embeddings : List (List ℝ)) : ℝ :=
  if embeddings.length < 2 then 1.0
  else
    let normed := embeddings.map (fun e => e.map (fun x => x / Real.sqrt (dotList e e)))
    let mean := (pairSims normed).sum / ((pairSims normed).length : ℝ)
    let adjusted := if mean < 0.6 then mean * (mean / 0.6) else mean
    max 0 (min 1 adjusted)

/-- Model of the Python expression prompt_emb / scalar where prompt_emb is the
plain Python list returned by CLIPService.encode_text (clip_service.py line
72 returns .tolist()): dividing a list by a float is a TypeError, raised
unconditionally (aesthetic_service.py line 115). -/
noncomputable def pyListDivFloat (_xs : List ℝ) (_scalar : ℝ) : Except String (List ℝ) :=
  .error "TypeError: unsupported operand types for / : list and float"

/-- Best-label loop of AestheticService.find_nearest_aesthetic
(aesthetic_service.py lines 121-133): strict improvement over a running
maximum that starts at -1.0, first-encountered label kept on ties. -/
noncomputable def bestLoop (p : List ℝ) :
    List (String × List ℝ) → ℝ → Option String → Except String (Option String)
  | [], _, best => .ok best
  | (name, v) :: rest, maxSim, best => do
    let sim ← npDot p v
    if maxSim < sim then bestLoop p rest sim (some name)
    else bestLoop p rest maxSim best

/-- Model of AestheticService.find_nearest_aesthetic (aesthetic_service.py
lines 107-139). The prompt encoding is the encode oracle (the value of
clip.encode_text, a plain list of floats, or its raised error); aesthetics is
the dictionary returned by get_all_aesthetics in iteration order. Every
exception inside the try block, including the TypeError raised by the
list-by-scalar normalization on line 115, is caught and None is returned. -/
noncomputable def find_nearest_aesthetic (encode : Except String (List ℝ))
    (aesthetics : List (String × List ℝ)) : Option String :=
  match (do
    let prompt_emb ← encode
    let prompt_emb ← pyListDivFloat prompt_emb (Real.sqrt (sumSq prompt_emb))
    if aesthetics.isEmpty then pure none
    else bestLoop prompt_emb aesthetics (-1) none : Except String (Option String)) with
  | .ok r => r
  | .error _ => none

/-- Model of app.models.ProductSimilarity: one row of a similarity search
result. -/
structure ProductSimilarity where
  id : String
  title : String
  price : ℝ
  image_url : String
  similarity : ℝ

/-- Model of app.models.SimilaritySearchRequest. -/
structure SimilaritySearchRequest where
  text : Option String := none
  image_url : Option String := none
  embedding : Option (List ℝ) := none
  category : Option String := none
  min_price : Option ℝ := none
  max_price : Option ℝ := none
  limit : ℕ := 10

/-- Parameter bound into the similarity search query, in source order
(similarity_service.py lines 51-77): the embedding rendered as a vector
string, then the optional filter values, then the embedding again and the
limit. -/
inductive SqlParam where
  | s : String → SqlParam
  | f : ℝ → SqlParam
  | n : ℕ → SqlParam
  | emb : List ℝ → SqlParam

/-- Model of SimilarityService.search_similar (similarity_service.py lines
25-94). Oracles: encode_text / encode_image are clip.encode_text and
clip.encode_image (either a vector or a raised error), connect is
db_service.connect(), and query_exec is the cursor execute / fetchall / row
conversion of the built query (rows already converted to ProductSimilarity).
The embedding is resolved first (Python falsiness: a missing or empty
embedding, url or text triggers the next branch), connect runs outside the
try block, and the try block around the store query catches every exception
and returns the empty list. -/
noncomputable def search_similar
    (encode_text encode_image : String → Except String (List ℝ))
    (connect : Except String Unit)
    (query_exec : String → List SqlParam → Except String (List ProductSimilarity))
    (request : SimilaritySearchRequest) : Except String (List ProductSimilarity) := do
  let target_embedding ←
    match request.embedding with
    | some (x :: xs) => pure (x :: xs)
    | _ =>
      match request.image_url with
      | some url =>
        if url ≠ "" then encode_image url
        else match request.text with
          | some t =>
            if t ≠ "" then encode_text t
            else Except.error "Must provide either text, image_url, or embedding"
          | none => Except.error "Must provide either text, image_url, or embedding"
      | none =>
        match request.text with
        | some t =>
          if t ≠ "" then encode_text t
          else Except.error "Must provide either text, image_url, or embedding"
        | none => Except.error "Must provide either text, image_url, or embedding"
  let _ ← connect
  let filters :=
    (if pyOrElse request.category "" ≠ "" then ["category = %s"] else [])
      ++ (if request.min_price.isSome then ["price >= %s"] else [])
      ++ (if request.max_price.isSome then ["price <= %s"] else [])
  let params :=
    [SqlParam.emb target_embedding]
      ++ (if pyOrElse request.category "" ≠ "" then [SqlParam.s (pyOrElse request.category "")]
          else [])
      ++ (match request.min_price with | some p => [SqlParam.f p] | none => [])
      ++ (match request.max_price with | some p => [SqlParam.f p] | none => [])
      ++ [SqlParam.emb target_embedding, SqlParam.n request.limit]
  let where_clause := if filters.isEmpty then "" else "WHERE " ++ String.intercalate " AND " filters
  let query :=
    "SELECT id, title, price, image_url, (1 - (image_embedding <=> %s::vector)) as similarity"
      ++ " FROM products " ++ where_clause
      ++ " ORDER BY image_embedding <=> %s::vector ASC LIMIT %s"
  match query_exec query params with
  | .ok rows => pure rows
  | .error _ => pure []

/-! Helper lemmas shared by the claim theorems. -/

theorem fallback_plan_base_length (p : ParsedPrompt) :
    (fallback_plan_base p).1.length = 2 ∨ (fallback_plan_base p).1.length = 3 := by
  simp only [fallback_plan_base]
  split_ifs <;> simp

theorem pySorted_perm_eq {cats₁ cats₂ : List String} (h : cats₁.Perm cats₂) :
    pySorted cats₁ = pySorted cats₂ :=
  List.eq_of_perm_of_sorted
    ((List.mergeSort_perm cats₁ _).trans (h.trans (List.mergeSort_perm cats₂ _).symm))
    (List.sorted_mergeSort' cats₁) (List.sorted_mergeSort' cats₂)

theorem retryAux_all_fail {ε α : Type} (config : RetryConfig) (op : ℕ → Except ε α)
    (js : ℕ → ℝ) :
    ∀ (fuel a : ℕ), (∀ i ≤ fuel, (op (a + i)).isOk = false) →
      (retryAux config op js a fuel).result = op (a + fuel) ∧
      (retryAux config op js a fuel).calls = fuel + 1 := by
  intro fuel
  induction fuel with
  | zero => intro a _; simp [retryAux]
  | succ n ih =>
    intro a h
    have h0 : (op a).isOk = false := by simpa using h 0 (Nat.zero_le _)
    cases hop : op a with
    | ok v => rw [hop] at h0; simp [Except.isOk, Except.toBool] at h0
    | error e =>
      have step := ih (a + 1) (fun i hi => by
        have := h (i + 1) (by omega)
        simpa [Nat.add_assoc, Nat.add_comm 1 i] using this)
      simp only [retryAux, hop]
      refine ⟨?_, ?_⟩
      · rw [step.1]; ring_nf
      · rw [step.2]

theorem retryAux_succeeds {ε α : Type} (config : RetryConfig) (op : ℕ → Except ε α)
    (js : ℕ → ℝ) :
    ∀ (fuel a k : ℕ) (v : α), k ≤ fuel → (∀ i < k, (op (a + i)).isOk = false) →
      op (a + k) = .ok v → (retryAux config op js a fuel).result = .ok v := by
  intro fuel
  induction fuel with
  | zero =>
    intro a k v hk _ hok
    interval_cases k
    simpa [retryAux] using hok
  | succ n ih =>
    intro a k v hk hfail hok
    cases k with
    | zero =>
      simp only [Nat.add_zero] at hok
      simp [retryAux, hok]
    | succ m =>
      have h0 : (op a).isOk = false := by simpa using hfail 0 (Nat.succ_pos m)
      cases hop : op a with
      | ok w => rw [hop] at h0; simp [Except.isOk, Except.toBool] at h0
      | error e =>
        simp only [retryAux, hop]
        exact ih (a + 1) m v (by omega)
          (fun i hi => by
            have := hfail (i + 1) (by omega)
            simpa [Nat.add_assoc, Nat.add_comm 1 i] using this)
          (by rw [show a + 1 + m = a + (m + 1) by omega]; exact hok)

theorem retryAux_delays {ε α : Type} (config : RetryConfig) (op : ℕ → Except ε α)
    (js : ℕ → ℝ) :
    ∀ (fuel a n : ℕ), n < (retryAux config op js a fuel).delays.length →
      (retryAux config op js a fuel).delays.getD n 0 = attempt_delay config js (a + n) := by
  intro fuel
  induction fuel with
  | zero => intro a n h; simp [retryAux] at h
  | succ m ih =>
    intro a n h
    cases hop : op a with
    | ok w => simp only [retryAux, hop] at h; simp at h
    | error e =>
      simp only [retryAux, hop] at h ⊢
      cases n with
      | zero => simp
      | succ j =>
        simp only [List.getD_cons_succ]
        have := ih (a + 1) j (by simpa [retryAux] using h)
        rw [this]
        ring_nf

theorem length_normalizeVec (e : List ℝ) : (normalizeVec e).length = e.length := by
  simp [normalizeVec]

theorem mapM_npDot_ok (e : List ℝ) :
    ∀ l : List (List ℝ), (∀ f ∈ l, f.length = e.length) →
      l.mapM (npDot e) = Except.ok (l.map (dotList e)) := by
  intro l
  induction l with
  | nil => intro _; rfl
  | cons f rest ih =>
    intro h
    have hf : f.length = e.length := h f (by simp)
    have hr := ih (fun g hg => h g (by simp [hg]))
    rw [List.mapM_cons, show npDot e f = Except.ok (dotList e f) from by simp [npDot, hf], hr]
    rfl

theorem pairSimsE_ok :
    ∀ (l : List (List ℝ)) (n : ℕ), (∀ e ∈ l, e.length = n) →
      pairSimsE l = Except.ok (pairSims l) := by
  intro l
  induction l with
  | nil => intro n _; rfl
  | cons e rest ih =>
    intro n h
    have he : e.length = n := h e (by simp)
    have hmap := mapM_npDot_ok e rest (fun f hf => by rw [h f (by simp [hf]), he])
    have hr := ih n (fun f hf => h f (by simp [hf]))
    simp only [pairSimsE, pairSims, hmap, hr]
    rfl

theorem normalizeVec_unit (v : List ℝ) (h : sumSq v = 1) : normalizeVec v = v := by
  simp [normalizeVec, h, Real.sqrt_one, div_one]

theorem pairSims_length (l : List (List ℝ)) :
    (pairSims l).length = l.length.choose 2 := by
  induction l with
  | nil => simp [pairSims]
  | cons e rest ih =>
    simp [pairSims, ih, Nat.choose_succ_succ, Nat.choose_one_right, Nat.add_comm]

/-! Claim theorems. -/

/-- C1: calculate_coherence equals the spec reference definition
(coherence_spec) on every list of equal-dimension embeddings; fewer than two
embeddings score 1.0; the pairwise similarity list has n(n-1)/2 entries; two
identical unit vectors score 1.0; two orthogonal unit vectors score below
0.5. -/
theorem calculate_coherence_matches_spec :
    (∀ (embs : List (List ℝ)) (n : ℕ), (∀ e ∈ embs, e.length = n) →
        calculate_coherence embs = coherence_spec embs) ∧
    (∀ embs : List (List ℝ), embs.length < 2 → calculate_coherence embs = 1) ∧
    (∀ l : List (List ℝ), (pairSims l).length = l.length * (l.length - 1) / 2) ∧
    (∀ v : List ℝ, dotList v v = 1 → calculate_coherence [v, v] = 1) ∧
    (∀ v w : List ℝ, v.length = w.length → dotList v v = 1 → dotList w w = 1 →
        dotList v w = 0 → calculate_coherence [v, w] < 0.5) := by
  refine ⟨?_, ?_, ?_, ?_, ?_⟩
  · intro embs n h
    by_cases hlen : embs.length < 2
    · simp [calculate_coherence, coherence_spec, hlen]
    · have hnormed : ∀ f ∈ embs.map normalizeVec, f.length = n := by
        intro f hf
        obtain ⟨e, he, rfl⟩ := List.mem_map.mp hf
        rw [length_normalizeVec]
        exact h e he
      have hps := pairSimsE_ok (embs.map normalizeVec) n hnormed
      have hnv : normalizeVec =
          fun e : List ℝ => List.map (fun x => x / Real.sqrt (dotList e e)) e := by
        funext e
        simp [normalizeVec, sumSq]
      simp only [calculate_coherence, coherence_try, coherence_spec, if_neg hlen, hps]
      rw [hnv]
      simp [Bind.bind, Except.bind, pure, Except.pure]
  · intro embs hlen
    simp only [calculate_coherence, if_pos hlen]
    norm_num
  · intro l
    rw [pairSims_length, Nat.choose_two_right]
  · intro v h
    have hmap : ([v, v] : List (List ℝ)).map normalizeVec = [v, v] := by
      simp [normalizeVec_unit v h]
    have hps := pairSimsE_ok ([v, v] : List (List ℝ)) v.length (by
      intro e he
      simp at he
      rcases he with rfl | rfl <;> rfl)
    have hpair : pairSims [v, v] = [1] := by
      simp [pairSims, h]
    have htry : coherence_try [v, v] = Except.ok 1 := by
      simp only [coherence_try, hmap, hps, hpair]
      norm_num [Bind.bind, Except.bind, pure, Except.pure]
    simp [calculate_coherence, htry]
  · intro v w hl hv hw hvw
    have hmap : ([v, w] : List (List ℝ)).map normalizeVec = [v, w] := by
      simp [normalizeVec_unit v hv, normalizeVec_unit w hw]
    have hps := pairSimsE_ok ([v, w] : List (List ℝ)) w.length (by
      intro e he
      simp at he
      rcases he with rfl | rfl
      · exact hl
      · rfl)
    have hpair : pairSims [v, w] = [0] := by
      simp [pairSims, hvw]
    have htry : coherence_try [v, w] = Except.ok 0 := by
      simp only [coherence_try, hmap, hps, hpair]
      norm_num [Bind.bind, Except.bind, pure, Except.pure]
    simp [calculate_coherence, htry]
    norm_num

/-- Witness for C1: the spec equality, the identical-unit-vector case and the
orthogonal case at the concrete embeddings [1,0] and [0,1]. -/
theorem calculate_coherence_matches_spec_witness :
    calculate_coherence [[1, 0], [0, 1]] = coherence_spec [[1, 0], [0, 1]] ∧
    calculate_coherence [] = 1 ∧
    calculate_coherence [[1, 0], [1, 0]] = 1 ∧
    calculate_coherence [[1, 0], [0, 1]] < 0.5 := by
  refine ⟨calculate_coherence_matches_spec.1 [[1, 0], [0, 1]] 2 ?_,
    calculate_coherence_matches_spec.2.1 [] (by norm_num),
    calculate_coherence_matches_spec.2.2.2.1 [1, 0] (by norm_num [dotList]),
    calculate_coherence_matches_spec.2.2.2.2 [1, 0] [0, 1] rfl (by norm_num [dotList])
      (by norm_num [dotList]) (by norm_num [dotList])⟩
  intro e he
  simp at he
  rcases he with rfl | rfl <;> rfl

/-- C2: retry_async returns the first success at or before max_retries; when
every attempt fails it invokes the operation exactly max_retries + 1 times and
re-raises the final attempt's error unmodified. -/
theorem retry_async_contract :
    (∀ (ε α : Type) (config : RetryConfig) (op : ℕ → Except ε α) (js : ℕ → ℝ),
        (∀ i ≤ config.max_retries, (op i).isOk = false) →
        (retry_async config op js).result = op config.max_retries ∧
        (retry_async config op js).calls = config.max_retries + 1) ∧
    (∀ (ε α : Type) (config : RetryConfig) (op : ℕ → Except ε α) (js : ℕ → ℝ) (k : ℕ) (v : α),
        k ≤ config.max_retries → (∀ i < k, (op i).isOk = false) → op k = .ok v →
        (retry_async config op js).result = .ok v) := by
  constructor
  · intro ε α config op js h
    have step := retryAux_all_fail config op js config.max_retries 0
      (fun i hi => by simpa using h i hi)
    simpa [retry_async] using step
  · intro ε α config op js k v hk hfail hok
    have step := retryAux_succeeds config op js config.max_retries 0 k v hk
      (fun i hi => by simpa using hfail i hi) (by simpa using hok)
    simpa [retry_async] using step

/-- Witness for C2: with max_retries = 3, an operation failing on attempts
0-2 and succeeding on attempt 3 returns the success; an always-failing
operation is invoked 4 times and its final error is re-raised. -/
theorem retry_async_contract_witness :
    (retry_async { max_retries := 3 }
        (fun i => if i < 3 then Except.error "fail" else Except.ok 99) (fun _ => 0)).result =
      Except.ok 99 ∧
    (retry_async { max_retries := 3 }
        (fun _ => (Except.error "down" : Except String ℕ)) (fun _ => 0)).result =
      Except.error "down" ∧
    (retry_async { max_retries := 3 }
        (fun _ => (Except.error "down" : Except String ℕ)) (fun _ => 0)).calls = 4 := by
  have h1 := retry_async_contract.2 String ℕ { max_retries := 3 }
    (fun i => if i < 3 then Except.error "fail" else Except.ok 99) (fun _ => 0) 3 99
    (by norm_num) (fun i hi => by simp [hi, Except.isOk, Except.toBool]) (by norm_num)
  have h2 := retry_async_contract.1 String ℕ { max_retries := 3 }
    (fun _ => Except.error "down") (fun _ => 0) (fun i _ => rfl)
  exact ⟨h1, by simpa using h2.1, by simpa using h2.2⟩

/-- C3: every slept delay is attempt_delay; without jitter that is
min(initial_delay * backoff_multiplier ^ n, max_delay); with jitter it is the
backoff delay perturbed by the sampled amount (within its plus-or-minus 25
percent support) and never below 0. -/
theorem retry_backoff_delays :
    ∀ (ε α : Type) (config : RetryConfig) (op : ℕ → Except ε α) (js : ℕ → ℝ) (n : ℕ),
      n < (retry_async config op js).delays.length →
      (retry_async config op js).delays.getD n 0 = attempt_delay config js n ∧
      (config.jitter_enabled = false →
          attempt_delay config js n =
            min (config.initial_delay * config.backoff_multiplier ^ n) config.max_delay) ∧
      (config.jitter_enabled = true → |js n| ≤ 0.25 * backoff_delay config n →
          attempt_delay config js n = backoff_delay config n + js n ∧
          0 ≤ attempt_delay config js n ∧
          |attempt_delay config js n - backoff_delay config n| ≤
            0.25 * backoff_delay config n) := by
  intro ε α config op js n h
  refine ⟨?_, ?_, ?_⟩
  · have step := retryAux_delays config op js config.max_retries 0 n
      (by simpa [retry_async] using h)
    simpa [retry_async] using step
  · intro hj
    simp [attempt_delay, hj, backoff_delay]
  · intro hj hjs
    have hd : 0 ≤ backoff_delay config n := by
      have := abs_nonneg (js n)
      linarith
    have habs := abs_le.mp hjs
    have hsum : 0 ≤ backoff_delay config n + js n := by linarith
    have heq : attempt_delay config js n = backoff_delay config n + js n := by
      simp [attempt_delay, hj, add_jitter, max_eq_right hsum]
    refine ⟨heq, by rw [heq]; exact hsum, ?_⟩
    rw [heq, add_sub_cancel_left]
    exact hjs

/-- Witness for C3: the first delay of an always-failing run under the
DATABASE policy (jitter off) equals the closed-form backoff, and under the
LLM_API policy (jitter on) with a zero jitter sample it equals the backoff
delay plus the sample. -/
theorem retry_backoff_delays_witness :
    (retry_async RetryConfigs_DATABASE
        (fun _ => (Except.error "down" : Except String ℕ)) (fun _ => 0)).delays.getD 0 0 =
      attempt_delay RetryConfigs_DATABASE (fun _ => 0) 0 ∧
    attempt_delay RetryConfigs_DATABASE (fun _ => 0) 0 =
      min (RetryConfigs_DATABASE.initial_delay * RetryConfigs_DATABASE.backoff_multiplier ^ 0)
        RetryConfigs_DATABASE.max_delay ∧
    attempt_delay RetryConfigs_LLM_API (fun _ => 0) 0 =
      backoff_delay RetryConfigs_LLM_API 0 + 0 := by
  have hlen : 0 < (retry_async RetryConfigs_DATABASE
      (fun _ => (Except.error "down" : Except String ℕ)) (fun _ => 0)).delays.length := by
    decide
  have hlen2 : 0 < (retry_async RetryConfigs_LLM_API
      (fun _ => (Except.error "down" : Except String ℕ)) (fun _ => 0)).delays.length := by
    decide
  have hdb := retry_backoff_delays String ℕ RetryConfigs_DATABASE
    (fun _ => Except.error "down") (fun _ => 0) 0 hlen
  have hllm := retry_backoff_delays String ℕ RetryConfigs_LLM_API
    (fun _ => Except.error "down") (fun _ => 0) 0 hlen2
  have hb : backoff_delay RetryConfigs_LLM_API 0 = 1 := by
    rw [backoff_delay]
    norm_num [RetryConfigs_LLM_API, min_def]
  have hjs : |(fun _ => (0 : ℝ)) 0| ≤ 0.25 * backoff_delay RetryConfigs_LLM_API 0 := by
    rw [hb]
    norm_num
  exact ⟨hdb.1, hdb.2.1 rfl, (hllm.2.2 rfl hjs).1⟩

/-- C4 counterexample: the claim that search_similar propagates every
upstream failure verbatim is false for the relational-store query. With a
supplied embedding, a successful connect and a failing store query, the call
returns an empty success result instead of the query's error. -/
theorem search_similar_swallows_store_error :
    search_similar (fun _ => Except.error "unused") (fun _ => Except.error "unused")
        (Except.ok ()) (fun _ _ => Except.error "connection refused")
        { embedding := some [1] } = Except.ok [] ∧
    Except.ok ([] : List ProductSimilarity) ≠ Except.error "connection refused" :=
  ⟨rfl, by simp⟩

/-- C4 amended: embedding-generation failures (image or text encoding) and
store-connect failures propagate verbatim, but a relational-store query
failure is caught and search_similar returns the empty list instead. -/
theorem search_similar_propagation :
    (∀ (et ei : String → Except String (List ℝ)) (connect : Except String Unit)
        (qe : String → List SqlParam → Except String (List ProductSimilarity))
        (request : SimilaritySearchRequest) (url err : String),
        request.embedding = none → request.image_url = some url → url ≠ "" →
        ei url = Except.error err →
        search_similar et ei connect qe request = Except.error err) ∧
    (∀ (et ei : String → Except String (List ℝ)) (connect : Except String Unit)
        (qe : String → List SqlParam → Except String (List ProductSimilarity))
        (request : SimilaritySearchRequest) (t err : String),
        request.embedding = none → request.image_url = none → request.text = some t →
        t ≠ "" → et t = Except.error err →
        search_similar et ei connect qe request = Except.error err) ∧
    (∀ (et ei : String → Except String (List ℝ)) (qe : String → List SqlParam →
        Except String (List ProductSimilarity)) (request : SimilaritySearchRequest)
        (x : ℝ) (xs : List ℝ) (err : String),
        request.embedding = some (x :: xs) →
        search_similar et ei (Except.error err) qe request = Except.error err) ∧
    (∀ (et ei : String → Except String (List ℝ)) (qe : String → List SqlParam →
        Except String (List ProductSimilarity)) (request : SimilaritySearchRequest)
        (x : ℝ) (xs : List ℝ) (err : String),
        request.embedding = some (x :: xs) →
        (∀ q ps, qe q ps = Except.error err) →
        search_similar et ei (Except.ok ()) qe request = Except.ok []) := by
  refine ⟨?_, ?_, ?_, ?_⟩
  · intro et ei connect qe request url err hemb himg hurl henc
    simp [search_similar, hemb, himg, hurl, henc, Bind.bind, Except.bind]
  · intro et ei connect qe request t err hemb himg ht htne henc
    simp [search_similar, hemb, himg, ht, htne, henc, Bind.bind, Except.bind]
  · intro et ei qe request x xs err hemb
    simp [search_similar, hemb, Bind.bind, Except.bind, pure, Except.pure]
  · intro et ei qe request x xs err hemb hqe
    simp [search_similar, hemb, hqe, Bind.bind, Except.bind, pure, Except.pure]

/-- Witness for C4 amended: a failing image encoding propagates its error,
while a failing store query yields an empty success result. -/
theorem search_similar_propagation_witness :
    search_similar (fun _ => Except.error "unused") (fun _ => Except.error "timeout")
        (Except.ok ()) (fun _ _ => Except.error "unused")
        { image_url := some "http://img" } = Except.error "timeout" ∧
    search_similar (fun _ => Except.error "unused") (fun _ => Except.error "unused")
        (Except.ok ()) (fun _ _ => Except.error "db down")
        { embedding := some [1] } = Except.ok [] := by
  constructor
  · exact search_similar_propagation.1 _ _ _ _ { image_url := some "http://img" }
      "http://img" "timeout" rfl rfl (by simp) rfl
  · exact search_similar_propagation.2.2.2 _ _ _ { embedding := some [1] } 1 [] "db down"
      rfl (fun _ _ => rfl)

/-- C5: find_nearest_aesthetic returns None for every prompt encoding and
every set of reference vectors, because the list-by-scalar normalization on
line 115 raises a TypeError that the surrounding handler converts to None; in
particular it returns None even when a reference vector identical to the
prompt embedding exists. -/
theorem find_nearest_aesthetic_always_none :
    (∀ (encode : Except String (List ℝ)) (aesthetics : List (String × List ℝ)),
        find_nearest_aesthetic encode aesthetics = none) ∧
    find_nearest_aesthetic (Except.ok [1, 0]) [("Streetwear", [1, 0])] = none := by
  have h : ∀ (encode : Except String (List ℝ)) (aesthetics : List (String × List ℝ)),
      find_nearest_aesthetic encode aesthetics = none := by
    intro encode aesthetics
    cases encode with
    | error e => rfl
    | ok emb => rfl
  exact ⟨h, h _ _⟩

/-- C6: a cache-miss plan whose upstream item count is outside [2,4] is
replaced by the fallback plan, and the fallback plan itself always yields
between 2 and 4 items. -/
theorem plan_outfit_validation :
    (∀ (p : ParsedPrompt) (items : List String) (reasoning : String),
        ¬(2 ≤ items.length ∧ items.length ≤ 4) →
        plan_outfit none (.ok (items, reasoning)) p = create_fallback_plan p) ∧
    (∀ p : ParsedPrompt,
        2 ≤ (create_fallback_plan p).1.length ∧ (create_fallback_plan p).1.length ≤ 4) := by
  constructor
  · intro p items reasoning h
    simp only [plan_outfit]
    rw [if_neg h]
  · intro p
    obtain h | h := fallback_plan_base_length p <;>
      · simp only [create_fallback_plan]
        split_ifs <;> simp_all [List.length_take, List.length_append]

/-- Witness for C6: a one-item upstream plan is replaced by the fallback, and
the fallback plan for the grunge aesthetic has at least two items. -/
theorem plan_outfit_validation_witness :
    plan_outfit none (.ok (["single item"], "r")) { aesthetic := "grunge" } =
      create_fallback_plan { aesthetic := "grunge" } ∧
    2 ≤ (create_fallback_plan { aesthetic := "grunge" }).1.length :=
  ⟨plan_outfit_validation.1 _ _ _ (by simp),
   (plan_outfit_validation.2 { aesthetic := "grunge" }).1⟩

/-- C7: the fallback prompt extractor is a total function whose result always
uses the raw prompt as the aesthetic, always contains the top and bottom
categories and always carries one of the three gender labels; on the prompt
"korean minimal outfit for a coffee date under 2000" it extracts budget 2000,
no size, gender unisex and exactly the default categories, with the aesthetic
containing both "korean" and "minimal". -/
theorem create_fallback_parse_spec :
    (∀ prompt : String,
        (create_fallback_parse prompt).aesthetic = prompt ∧
        "top" ∈ (create_fallback_parse prompt).categories ∧
        "bottom" ∈ (create_fallback_parse prompt).categories ∧
        ∃ g, (create_fallback_parse prompt).gender = some g ∧
          (g = "male" ∨ g = "female" ∨ g = "unisex")) ∧
    create_fallback_parse "korean minimal outfit for a coffee date under 2000" =
      { aesthetic := "korean minimal outfit for a coffee date under 2000"
        budget := some 2000
        size := none
        gender := some "unisex"
        occasion := none
        categories := ["top", "bottom"] } ∧
    pyIn "korean" "korean minimal outfit for a coffee date under 2000" = true ∧
    pyIn "minimal" "korean minimal outfit for a coffee date under 2000" = true := by
  refine ⟨?_, by decide, by decide, by decide⟩
  intro prompt
  refine ⟨rfl, by simp [create_fallback_parse], by simp [create_fallback_parse], ?_⟩
  simp only [create_fallback_parse]
  split_ifs <;> exact ⟨_, rfl, by simp⟩

/-- C8: cache-key derivation is deterministic and normalization-invariant
for any hash function: prompts differing only in case and surrounding
whitespace share a parse key (with the concrete pair of the spec), and plan
requests differing only in category order share a plan key. -/
theorem cache_key_normalization :
    (∀ h : String → String,
        parse_generate_cache_key h "Korean Minimal " =
          parse_generate_cache_key h "korean minimal") ∧
    (∀ (h : String → String) (p q : String),
        pyStrip (pyToLower p) = pyStrip (pyToLower q) →
        parse_generate_cache_key h p = parse_generate_cache_key h q) ∧
    (∀ (h : String → String) (p : ParsedPrompt) (cats₁ cats₂ : List String),
        cats₁.Perm cats₂ →
        plan_generate_cache_key h { p with categories := cats₁ } =
          plan_generate_cache_key h { p with categories := cats₂ }) := by
  have key_congr : ∀ (h : String → String) (p q : String),
      pyStrip (pyToLower p) = pyStrip (pyToLower q) →
      parse_generate_cache_key h p = parse_generate_cache_key h q := by
    intro h p q hpq
    simp [parse_generate_cache_key, hpq]
  refine ⟨fun h => key_congr h _ _ (by decide), key_congr, ?_⟩
  intro h p cats₁ cats₂ hperm
  simp [plan_generate_cache_key, plan_cache_key_string, pySorted_perm_eq hperm]

/-- Witness for C8: concrete case-and-whitespace variants share a parse key
and concrete category reorderings share a plan key, with the identity taken
as the hash. -/
theorem cache_key_normalization_witness :
    parse_generate_cache_key (fun s => s) "  MINIMAL" =
      parse_generate_cache_key (fun s => s) "minimal" ∧
    plan_generate_cache_key (fun s => s)
        { aesthetic := "korean", categories := ["top", "bottom"] } =
      plan_generate_cache_key (fun s => s)
        { aesthetic := "korean", categories := ["bottom", "top"] } :=
  ⟨cache_key_normalization.2.1 (fun s => s) "  MINIMAL" "minimal" (by decide),
   cache_key_normalization.2.2 (fun s => s) { aesthetic := "korean" }
     ["top", "bottom"] ["bottom", "top"] (List.Perm.swap "bottom" "top" [])⟩

/-- C9: score_outfits always returns exactly one score per requested outfit,
every returned score lies in [1,10], and an upstream failure or a
wrong-length upstream score list yields the all-5.0 neutral result. -/
theorem score_outfits_shape :
    ∀ (api : Except String (List ℝ)) (request : ScoreOutfitsRequest),
      (score_outfits api request).length = request.outfits.length ∧
      (∀ s ∈ score_outfits api request, 1 ≤ s ∧ s ≤ 10) ∧
      (∀ e, api = .error e →
          score_outfits api request = List.replicate request.outfits.length 5.0) ∧
      (∀ scores, api = .ok scores → scores.length ≠ request.outfits.length →
          score_outfits api request = List.replicate request.outfits.length 5.0) := by
  intro api request
  cases api with
  | error e =>
    refine ⟨by simp [score_outfits], ?_, fun _ _ => rfl, by simp⟩
    intro s hs
    simp only [score_outfits] at hs
    rw [List.eq_of_mem_replicate hs]
    norm_num
  | ok scores =>
    by_cases h : scores.length = request.outfits.length
    · have hres : score_outfits (.ok scores) request =
          scores.map (fun s => max 1.0 (min 10.0 s)) := by
        simp [score_outfits, h]
      refine ⟨by simp [hres, h], ?_, by simp, ?_⟩
      · intro s hs
        rw [hres] at hs
        obtain ⟨x, -, rfl⟩ := List.mem_map.mp hs
        exact ⟨le_max_of_le_left (by norm_num),
          max_le (by norm_num) ((min_le_left _ _).trans (by norm_num))⟩
      · intro sc hsc hne
        injection hsc with h2
        exact absurd (h2 ▸ h) hne
    · have hres : score_outfits (.ok scores) request =
          List.replicate request.outfits.length 5.0 := by
        simp [score_outfits, h]
      refine ⟨by simp [hres], ?_, by simp, fun _ _ _ => hres⟩
      intro s hs
      rw [hres] at hs
      rw [List.eq_of_mem_replicate hs]
      norm_num

/-- Witness for C9: one outfit with a failing upstream scores [5.0], and one
outfit with a two-score upstream response also scores [5.0]. -/
theorem score_outfits_shape_witness :
    score_outfits (Except.error "API Error") { aesthetic := "streetwear", outfits := [⟨[]⟩] } =
      [5.0] ∧
    score_outfits (Except.ok [3.0, 12.0])
        { aesthetic := "streetwear", outfits := [⟨[]⟩] } = [5.0] := by
  constructor
  · have h := (score_outfits_shape (Except.error "API Error")
      { aesthetic := "streetwear", outfits := [⟨[]⟩] }).2.2.1 "API Error" rfl
    simpa using h
  · have h := (score_outfits_shape (Except.ok [3.0, 12.0])
      { aesthetic := "streetwear", outfits := [⟨[]⟩] }).2.2.2 [3.0, 12.0] rfl (by simp)
    simpa using h

/-- C10: calculate_coherence is total: a try-block failure (such as the shape
ValueError on mismatched dimensions) is caught and mapped to the neutral 0.5,
a try-block success is returned as is, the try block always produces either a
value or an error, and concretely mismatched dimensions yield 0.5. -/
theorem calculate_coherence_total :
    (∀ (embs : List (List ℝ)) (msg : String), 2 ≤ embs.length →
        coherence_try embs = Except.error msg → calculate_coherence embs = 0.5) ∧
    (∀ (embs : List (List ℝ)) (v : ℝ), 2 ≤ embs.length →
        coherence_try embs = Except.ok v → calculate_coherence embs = v) ∧
    (∀ embs : List (List ℝ), (∃ v, coherence_try embs = Except.ok v) ∨
        (∃ msg, coherence_try embs = Except.error msg)) ∧
    calculate_coherence [[1], [1, 2]] = 0.5 := by
  refine ⟨?_, ?_, ?_, rfl⟩
  · intro embs msg hlen herr
    simp [calculate_coherence, Nat.not_lt.mpr hlen, herr]
  · intro embs v hlen hok
    simp [calculate_coherence, Nat.not_lt.mpr hlen, hok]
  · intro embs
    cases h : coherence_try embs with
    | ok v => exact Or.inl ⟨v, rfl⟩
    | error msg => exact Or.inr ⟨msg, rfl⟩

/-- Witness for C10: the two-element mismatched-dimension input hits the
caught ValueError and returns 0.5. -/
theorem calculate_coherence_total_witness :
    2 ≤ ([[1], [1, 2]] : List (List ℝ)).length ∧
    calculate_coherence [[1], [1, 2]] = 0.5 :=
  ⟨by norm_num,
   calculate_coherence_total.1 [[1], [1, 2]] "ValueError: shapes not aligned"
     (by norm_num) rfl⟩
